import Mathlib

/-!
Verification development for the merchant trading-portfolio repository.

The embedded code comes from two Python files:
  * merchant/trading/portfolio/portfolio.py  (holdings, open-position stack, portfolio)
  * merchant/env/_old/portfolio.py           (legacy portfolio, pl ratio)

Value types (Instrument, Asset, ValuedTrade, ClosedPosition) live in modules of the
repository that are not part of the provided sources; they are modelled from the
specification and carry a doc comment saying so.  All functions of the two provided
files are translated directly from their source.  Python exceptions are modelled with
Except; an error value carries the state as it stands at the moment of the raise, so
that partial mutation performed before an exception remains observable.
-/

namespace Merchant

/-- Modelled from the spec: an Instrument is an immutable identity (equality by
identity); it is represented by a natural-number identifier.  The precision field
plays no role in the embedded operations (all quantities of one instrument share its
scale), so it is not carried. -/
abbrev Instrument := Nat

/-- Modelled from the spec: an Asset is a quantity of one Instrument at the
instrument's fixed precision.  The quantity is the precision-scaled integer, so
addition and subtraction of same-instrument assets are exact integer operations and
a quantity may be negative (subtracting more than available is legal at this
layer). -/
structure Asset where
  instrument : Instrument
  quantity : Int
deriving DecidableEq

/-- Python exceptions raised by the embedded code. -/
inductive PyErr where
  /-- ValueError raised by remove_asset when has_asset is False. -/
  | cannotRemove
  /-- ValueError raised by unpacking a 3-tuple into two variables. -/
  | unpackMismatch
  /-- IndexError raised by list.pop() on an empty list. -/
  | indexError
  /-- KeyError raised by del on a key that is not in the dictionary. -/
  | keyError
  /-- Modelled from the spec: arithmetic or comparison across differing
  instruments fails (InstrumentMismatchError). -/
  | instrumentMismatch
  /-- Artefact of the embedding: the fuel bound of the pop loop ran out.  Never
  produced in any state reachable through the embedded operations. -/
  | outOfFuel
deriving DecidableEq

instance {ε α : Type} [DecidableEq ε] [DecidableEq α] : DecidableEq (Except ε α)
  | .error a, .error b =>
      if h : a = b then isTrue (by rw [h]) else isFalse (fun hc => h (by injection hc))
  | .error _, .ok _ => isFalse (fun hc => Except.noConfusion hc)
  | .ok _, .error _ => isFalse (fun hc => Except.noConfusion hc)
  | .ok a, .ok b =>
      if h : a = b then isTrue (by rw [h]) else isFalse (fun hc => h (by injection hc))

/-- True exactly on ok results (the call returned rather than raised). -/
def isOkE {ε α : Type} : Except ε α → Bool
  | .ok _ => true
  | .error _ => false

/-- Modelled from the spec: Asset addition requires equal instruments and adds the
scaled quantities. -/
def Asset.addA (a b : Asset) : Except PyErr Asset :=
  if a.instrument = b.instrument then .ok ⟨a.instrument, a.quantity + b.quantity⟩
  else .error .instrumentMismatch

/-- Modelled from the spec: Asset subtraction requires equal instruments and
subtracts the scaled quantities; the result may be negative. -/
def Asset.subA (a b : Asset) : Except PyErr Asset :=
  if a.instrument = b.instrument then .ok ⟨a.instrument, a.quantity - b.quantity⟩
  else .error .instrumentMismatch

/-- Modelled from the spec: comparison of two Assets compares quantities and
requires equal instruments. -/
def Asset.leA (a b : Asset) : Except PyErr Bool :=
  if a.instrument = b.instrument then .ok (decide (a.quantity ≤ b.quantity))
  else .error .instrumentMismatch

/-- Modelled from the spec: the test `asset > 0` compares the quantity against the
instrument's precision-scaled zero. -/
def Asset.gt0 (a : Asset) : Bool := decide (0 < a.quantity)

/-- Modelled from the spec: a ValuedTrade is an immutable exchange of one Asset sold
for one Asset bought.  The tag stands for the identity of the trade object (two
trades created at different times are distinct); the attached Valuation is not used
by any embedded operation and is not carried. -/
structure ValuedTrade where
  sell : Asset
  buy : Asset
  tag : Nat
deriving DecidableEq

/-- Modelled from the spec: ClosedPosition(amount, open, close) records that
`amount` of the lot opened by `opn` was closed by `close`. -/
structure ClosedPosition where
  amount : Asset
  opn : ValuedTrade
  close : ValuedTrade
deriving DecidableEq

/-!
## Holdings (_StaticPortfolio)

The dict `_assets : dict[Instrument, Asset]` is modelled as an association list.
-/

/-- The `_assets` dictionary of `_StaticPortfolio`. -/
abbrev Holdings := List (Instrument × Asset)

/-- Dictionary lookup. -/
def lookupH : Holdings → Instrument → Option Asset
  | [], _ => none
  | (j, a) :: rest, i => if j = i then some a else lookupH rest i

/-- Dictionary assignment `m[i] = a`: replaces the first binding of `i`, or appends
a new binding. -/
def insertH : Holdings → Instrument → Asset → Holdings
  | [], i, a => [(i, a)]
  | (j, b) :: rest, i, a =>
      if j = i then (j, a) :: rest else (j, b) :: insertH rest i a

/-- Dictionary deletion `del m[i]`: removes the first binding of `i`, and raises
KeyError when the key is absent, as Python del does. -/
def eraseH : Holdings → Instrument → Except PyErr Holdings
  | [], _ => .error .keyError
  | (j, b) :: rest, i =>
      if j = i then .ok rest
      else
        match eraseH rest i with
        | .error e => .error e
        | .ok r => .ok ((j, b) :: r)

/-- `_StaticPortfolio.__getitem__`: the stored asset, or a synthesized
zero-quantity asset of the requested instrument when absent (no mutation). -/
def getAsset (m : Holdings) (i : Instrument) : Asset :=
  match lookupH m i with
  | none => ⟨i, 0⟩
  | some a => a

/-- `_StaticPortfolio.has_asset`: `self[asset.instrument].quantity >= asset.quantity`. -/
def hasAsset (m : Holdings) (a : Asset) : Bool :=
  decide (a.quantity ≤ (getAsset m a.instrument).quantity)

/-- `_StaticPortfolio.add_asset`:
`owned = self[asset.instrument]; self._assets[owned.instrument] = owned + asset`. -/
def addAsset (m : Holdings) (a : Asset) : Except (PyErr × Holdings) Holdings :=
  let owned := getAsset m a.instrument
  match owned.addA a with
  | .error e => .error (e, m)
  | .ok s => .ok (insertH m owned.instrument s)

/-- `_StaticPortfolio.remove_asset`, translated line by line:
```
owned = self[asset.instrument]
if self.has_asset(asset) is False: raise ValueError(...)
new = owned - asset
if new.quantity > 0: del self._assets[owned.instrument]
else:                self._assets[owned.instrument] = new
```
Note that the source deletes the entry when the remainder is positive and stores the
remainder when it is not; the del raises KeyError when the instrument has no stored
entry (which __getitem__ synthesizes without inserting). -/
def removeAsset (m : Holdings) (a : Asset) : Except (PyErr × Holdings) Holdings :=
  let owned := getAsset m a.instrument
  if hasAsset m a = false then .error (.cannotRemove, m)
  else
    match owned.subA a with
    | .error e => .error (e, m)
    | .ok n =>
        if 0 < n.quantity then
          match eraseH m owned.instrument with
          | .error e => .error (e, m)
          | .ok m2 => .ok m2
        else .ok (insertH m owned.instrument n)

/-- Well-formedness of a holdings dictionary: every stored asset carries the
instrument it is keyed under.  This holds for every dictionary reachable through
addAsset and removeAsset from a well-formed start. -/
def WFHoldings (m : Holdings) : Prop := ∀ p ∈ m, (p.2).instrument = p.1

instance (m : Holdings) : Decidable (WFHoldings m) := by
  unfold WFHoldings; infer_instance

/-!
## _OpenPositionStack

`_positions : dict[Instrument, list[TradeTuple]]` is a defaultdict of lists.  The
type alias in the source declares `TradeTuple = tuple[Asset, ValuedTrade]`, but
`_push` appends the 3-tuple `(trade._buy, 0, trade)` (with a stray literal 0 under a
type-ignore), while `_pop` unpacks a popped entry into two variables.  Stack entries
are therefore modelled as a sum of the two tuple shapes that occur in the source,
and the two-variable unpacking of a 3-tuple raises ValueError exactly as Python
does.  Lists are modelled with the Python list end (the stack top) at the head, so
`append` is cons and `pop` takes the head. -/
inductive Entry where
  /-- A 2-tuple `(asset, open_trade)`, the shape the partial-consumption branch of
  `_pop` appends and the shape `TradeTuple` declares. -/
  | pair (asset : Asset) (opn : ValuedTrade)
  /-- The 3-tuple `(trade._buy, 0, trade)` that `_push` appends. -/
  | triple (asset : Asset) (zero : Int) (opn : ValuedTrade)
deriving DecidableEq

/-- The remaining lot quantity an entry carries (the quantity of its Asset). -/
def Entry.qty : Entry → Int
  | .pair a _ => a.quantity
  | .triple a _ _ => a.quantity

/-- State of `_OpenPositionStack`: the per-instrument lot lists and the benchmark
instrument (positions on the benchmark are not tracked). -/
structure Stack where
  positions : List (Instrument × List Entry)
  benchmark : Instrument
deriving DecidableEq

/-- Lookup in the positions dictionary. -/
def lookupPos : List (Instrument × List Entry) → Instrument → Option (List Entry)
  | [], _ => none
  | (j, l) :: rest, i => if j = i then some l else lookupPos rest i

/-- Assignment in the positions dictionary: replaces the first binding of `i`, or
appends a new binding. -/
def insertPos : List (Instrument × List Entry) → Instrument → List Entry →
    List (Instrument × List Entry)
  | [], i, l => [(i, l)]
  | (j, m) :: rest, i, l =>
      if j = i then (j, l) :: rest else (j, m) :: insertPos rest i l

/-- `self._positions[i]` for reading: the stored list, or the defaultdict's fresh
empty list.  (The defaultdict also inserts the empty list on first access; that
insertion is not observable through any embedded read, so it is not tracked.) -/
def Stack.getPos (st : Stack) (i : Instrument) : List Entry :=
  match lookupPos st.positions i with
  | none => []
  | some l => l

/-- Replaces the lot list stored for instrument `i`. -/
def Stack.setPos (st : Stack) (i : Instrument) (l : List Entry) : Stack :=
  { st with positions := insertPos st.positions i l }

/-- `_OpenPositionStack._push`:
`self._positions[trade._buy.instrument].append((trade._buy, 0, trade))`. -/
def Stack.push (st : Stack) (t : ValuedTrade) : Stack :=
  st.setPos t.buy.instrument (.triple t.buy 0 t :: st.getPos t.buy.instrument)

/-- The body of the while loop of `_OpenPositionStack._pop`:
```
while sold_asset > 0:
    asset, open = self._positions[trade._sell.instrument].pop()
    if sold_asset <= asset:
        self._positions[...].append((asset - trade._sell, open))
        ret.append(ClosedPosition(amount=trade._sell, open=open, close=trade))
        continue
    ret.append(ClosedPosition(amount=asset, open=open, close=trade))
    sold_asset -= asset
```
The loop only ever touches the sold instrument's list, so it is embedded as a
function of that list; an error carries the list as it stands at the raise (entries
already popped stay popped).  `fuel` bounds the number of iterations; every state
reachable through push and handleTrade finishes the loop in one step (the first pop
either raises IndexError on an empty list or ValueError unpacking a 3-tuple), so
the bound passed by `Stack.pop` is never reached. -/
def popLoop (t : ValuedTrade) : Nat → Asset → List ClosedPosition → List Entry →
    Except (PyErr × List Entry) (List ClosedPosition × List Entry)
  | 0, _, _, lots => .error (.outOfFuel, lots)
  | fuel + 1, sold, ret, lots =>
      if sold.gt0 then
        match lots with
        | [] => .error (.indexError, [])
        | .triple _ _ _ :: rest => .error (.unpackMismatch, rest)
        | .pair asset opn :: rest =>
            match sold.leA asset with
            | .error e => .error (e, rest)
            | .ok true =>
                match asset.subA t.sell with
                | .error e => .error (e, rest)
                | .ok reduced =>
                    popLoop t fuel sold (ret ++ [⟨t.sell, opn, t⟩])
                      (.pair reduced opn :: rest)
            | .ok false =>
                match sold.subA asset with
                | .error e => .error (e, rest)
                | .ok sold2 => popLoop t fuel sold2 (ret ++ [⟨asset, opn, t⟩]) rest
      else .ok (ret, lots)

/-- Fuel bound for the pop loop: generous enough for every terminating run (see the
comment on `popLoop`; reachable runs stop within one iteration). -/
def popFuel (sold : Asset) (lots : List Entry) : Nat :=
  lots.length + sold.quantity.toNat + (lots.map fun e => e.qty.toNat).sum + 2

/-- `_OpenPositionStack._pop`: runs the loop on the sold instrument's list, starting
from `sold_asset = trade._sell` and `ret = []`, and stores the resulting list back
(also when an exception escapes, since the pops and appends already performed have
mutated the stored list). -/
def Stack.pop (st : Stack) (t : ValuedTrade) :
    Except (PyErr × Stack) (List ClosedPosition × Stack) :=
  let lots := st.getPos t.sell.instrument
  match popLoop t (popFuel t.sell lots) t.sell [] lots with
  | .error (e, lots2) => .error (e, st.setPos t.sell.instrument lots2)
  | .ok (ret, lots2) => .ok (ret, st.setPos t.sell.instrument lots2)

/-- `_OpenPositionStack.handle_trade`:
```
if trade._buy.instrument != self._benchmark: self._push(trade)
if trade._sell.instrument != self._benchmark: return self._pop(trade)
return []
``` -/
def Stack.handleTrade (st : Stack) (t : ValuedTrade) :
    Except (PyErr × Stack) (List ClosedPosition × Stack) :=
  let st1 := if t.buy.instrument ≠ st.benchmark then st.push t else st
  if t.sell.instrument ≠ st.benchmark then st1.pop t
  else .ok ([], st1)

/-- Total remaining lot quantity tracked for an instrument (sum over its stack). -/
def Stack.lotSum (st : Stack) (i : Instrument) : Int :=
  ((st.getPos i).map Entry.qty).sum

/-!
## Portfolio
-/

/-- The mutable state of a `Portfolio` touched by trade execution: the inherited
holdings dictionary, the open-position stack, the append-only trade history and the
append-only closed-position history.  (Markets, clocks and benchmark caches are
external collaborators and are not part of the embedded state.) -/
structure Portfolio where
  holdings : Holdings
  stack : Stack
  tradeHistory : List ValuedTrade
  closedPositions : List ClosedPosition
deriving DecidableEq

/-- `Portfolio._append_trade_to_history`, translated from the source:
```
self._trade_history.append(trade)
closed_positions = self._open_positions.handle_trade(trade)
self._closed_positions.extend(closed_positions)
``` -/
def Portfolio.appendTradeToHistory (p : Portfolio) (t : ValuedTrade) :
    Except (PyErr × Portfolio) Portfolio :=
  let p1 := { p with tradeHistory := p.tradeHistory ++ [t] }
  match p1.stack.handleTrade t with
  | .error (e, st) => .error (e, { p1 with stack := st })
  | .ok (cps, st) =>
      .ok { p1 with stack := st, closedPositions := p1.closedPositions ++ cps }

/-- Modelled from the spec: `execute_trade` is described in the specification but
absent from the provided sources (only `_append_trade_to_history` exists).  Per the
spec it applies `remove_asset(trade.sell)` and `add_asset(trade.buy)` to Holdings
(if removal fails the buy side is not applied), then appends to trade history,
calls `handle_trade` and appends the results to the closed-position history.  The
history and lot-stack steps are exactly `_append_trade_to_history` from the
source.  Cache invalidation touches no embedded state. -/
def Portfolio.executeTrade (p : Portfolio) (t : ValuedTrade) :
    Except (PyErr × Portfolio) Portfolio :=
  match removeAsset p.holdings t.sell with
  | .error (e, m) => .error (e, { p with holdings := m })
  | .ok m1 =>
      match addAsset m1 t.buy with
      | .error (e, m) => .error (e, { p with holdings := m })
      | .ok m2 => Portfolio.appendTradeToHistory { p with holdings := m2 } t

/-!
## Legacy portfolio (merchant/env/_old/portfolio.py)
-/

/-- The legacy `Portfolio` of merchant/env/_old/portfolio.py, reduced to the fields
its `value` and `pl_ratio` properties read: the starting cash, the current cash
quantity and the summed value of the stock positions.  Python floats are modelled
as rationals. -/
structure OldPortfolio where
  startCash : Rat
  cash : Rat
  positionsValue : Rat
deriving DecidableEq

/-- Legacy `Portfolio.value`: `self._cash.value + self._positions.value`. -/
def OldPortfolio.value (p : OldPortfolio) : Rat := p.cash + p.positionsValue

/-- Legacy `Portfolio.pl_ratio`:
```
if self._start_cash == 0: return None
return (self.value - self._start_cash) / self._start_cash
``` -/
def OldPortfolio.plRatio (p : OldPortfolio) : Option Rat :=
  if p.startCash = 0 then none
  else some ((p.value - p.startCash) / p.startCash)

/-!
## Concrete scenario

Benchmark (cash) instrument 0, traded instrument 1.  The buys and sells below are
the trades used by the concrete evaluations: B1 buys 5 of instrument 1 for 50 cash,
B2 buys 3 for 30, and the sells close various amounts against them.
-/

/-- Cash asset (benchmark instrument 0) of the given scaled quantity. -/
def cashA (q : Int) : Asset := ⟨0, q⟩

/-- Asset of the traded instrument 1 with the given scaled quantity. -/
def xA (q : Int) : Asset := ⟨1, q⟩

/-- Buy of 5 units of instrument 1 against 50 cash. -/
def tradeB1 : ValuedTrade := ⟨cashA 50, xA 5, 1⟩

/-- Buy of 3 units of instrument 1 against 30 cash. -/
def tradeB2 : ValuedTrade := ⟨cashA 30, xA 3, 2⟩

/-- Sell of 4 units of instrument 1 for 40 cash. -/
def tradeS4 : ValuedTrade := ⟨xA 4, cashA 40, 3⟩

/-- Sell of 5 units of instrument 1 for 50 cash. -/
def tradeS5 : ValuedTrade := ⟨xA 5, cashA 50, 4⟩

/-- Sell of 3 units of instrument 1 for 30 cash. -/
def tradeS3 : ValuedTrade := ⟨xA 3, cashA 30, 5⟩

/-- Sell of 10 units of instrument 1 for 100 cash. -/
def tradeS10 : ValuedTrade := ⟨xA 10, cashA 100, 6⟩

/-- Zero-quantity sell of instrument 1 (a no-op trade per the spec). -/
def tradeS0 : ValuedTrade := ⟨xA 0, cashA 0, 7⟩

/-- Empty stack with benchmark instrument 0. -/
def stack0 : Stack := ⟨[], 0⟩

/-- Stack holding the single lot pushed for B1 (one buy of 5). -/
def stackB1 : Stack := ⟨[(1, [.triple (xA 5) 0 tradeB1])], 0⟩

/-- Stack after the buys B1 then B2 (top of the lot list at the head). -/
def stackB1B2 : Stack := ⟨[(1, [.triple (xA 3) 0 tradeB2, .triple (xA 5) 0 tradeB1])], 0⟩

/-!
## Helper lemmas
-/

theorem lookupH_mem {m : Holdings} {i : Instrument} {a : Asset}
    (h : lookupH m i = some a) : (i, a) ∈ m := by
  induction m with
  | nil => simp [lookupH] at h
  | cons p rest ih =>
      obtain ⟨j, b⟩ := p
      by_cases hj : j = i
      · subst hj
        simp [lookupH] at h
        subst h
        exact List.mem_cons_self _ _
      · simp [lookupH, hj] at h
        exact List.mem_cons_of_mem _ (ih h)

theorem getAsset_instrument (m : Holdings) (i : Instrument) (w : WFHoldings m) :
    (getAsset m i).instrument = i := by
  unfold getAsset
  cases h : lookupH m i with
  | none => rfl
  | some a => exact w (i, a) (lookupH_mem h)

theorem eraseH_none {m : Holdings} {i : Instrument} (h : lookupH m i = none) :
    eraseH m i = .error .keyError := by
  induction m with
  | nil => rfl
  | cons p rest ih =>
      obtain ⟨j, b⟩ := p
      by_cases hj : j = i
      · subst hj
        simp [lookupH] at h
      · simp only [lookupH, hj, if_false] at h
        simp [eraseH, hj, ih h]

theorem eraseH_some {m : Holdings} {i : Instrument} {b : Asset}
    (h : lookupH m i = some b) : ∃ r, eraseH m i = .ok r := by
  induction m with
  | nil => simp [lookupH] at h
  | cons p rest ih =>
      obtain ⟨j, c⟩ := p
      by_cases hj : j = i
      · exact ⟨rest, by simp [eraseH, hj]⟩
      · simp only [lookupH, hj, if_false] at h
        obtain ⟨r, hr⟩ := ih h
        exact ⟨(j, c) :: r, by simp [eraseH, hj, hr]⟩

/-!
## Claim theorems
-/

/-- C1: the claim says a sell whose remaining quantity is smaller than the top lot
reduces that lot by the remaining quantity, emits one ClosedPosition of that
remaining quantity and stops, so that after buys of 5 and 3 a sell of 4 yields the
closed positions (3 against B2) and (1 against B1).  The code instead raises
ValueError on the sell: the pushed lot entries are 3-tuples `(buy, 0, trade)` and
the pop unpacks them into two variables; the popped top lot is lost and no
ClosedPosition is produced.  (Even over 2-tuple entries the partial branch would
subtract the full sold quantity, record the full sold quantity as the amount, and
continue the loop instead of stopping.) -/
theorem claim1_lifo_partial_lot :
    stack0.handleTrade tradeB1 = .ok ([], stackB1) ∧
    stackB1.handleTrade tradeB2 = .ok ([], stackB1B2) ∧
    stackB1B2.handleTrade tradeS4 =
      .error (.unpackMismatch, ⟨[(1, [.triple (xA 5) 0 tradeB1])], 0⟩) ∧
    decide (stackB1B2.handleTrade tradeS4 =
      .ok ([⟨xA 3, tradeB2, tradeS4⟩, ⟨xA 1, tradeB1, tradeS4⟩],
        ⟨[(1, [.pair (xA 4) tradeB1])], 0⟩)) = false :=
  ⟨rfl, rfl, rfl, rfl⟩

/-- C2: the claim says a lot whose quantity is at most the remaining sold quantity
is fully consumed and removed, so that selling exactly the total open quantity
(buy 5 then sell 5) leaves the stack empty and returns one ClosedPosition of the
whole lot.  The code instead raises ValueError while popping (the 3-tuple lot
entry cannot be unpacked into two variables), emits no ClosedPosition, and at the
boundary case its branch test `sold_asset <= asset` sends an exactly-matching lot
into the push-back branch rather than the full-consumption branch. -/
theorem claim2_full_consumption :
    stackB1.handleTrade tradeS5 = .error (.unpackMismatch, ⟨[(1, [])], 0⟩) ∧
    decide (stackB1.handleTrade tradeS5 =
      .ok ([⟨xA 5, tradeB1, tradeS5⟩], ⟨[(1, [])], 0⟩)) = false :=
  ⟨rfl, rfl⟩

/-- C3: the claim says handle_trade returns whenever the remaining lots cover the
sold quantity.  With one open lot of 5 covering a sell of 3, the call raises
ValueError instead of returning (the loop aborts on its first pop, unpacking the
3-tuple lot entry into two variables). -/
theorem claim3_pop_returns :
    stackB1.handleTrade tradeS3 = .error (.unpackMismatch, ⟨[(1, [])], 0⟩) ∧
    isOkE (stackB1.handleTrade tradeS3) = false :=
  ⟨rfl, rfl⟩

/-- C4: the claim says an over-sell fails with InsufficientLotsError and leaves the
stacks unchanged.  Selling 10 against a single open lot of 5 raises ValueError
(3-tuple unpack) before the shortfall is even reached, no InsufficientLotsError
class exists in the source, and the state at the raise has lost the popped lot:
instrument 1 held one lot before the call and none after. -/
theorem claim4_oversell :
    stackB1.handleTrade tradeS10 = .error (.unpackMismatch, ⟨[(1, [])], 0⟩) ∧
    stackB1.getPos 1 = [.triple (xA 5) 0 tradeB1] ∧
    Stack.getPos ⟨[(1, [])], 0⟩ 1 = [] :=
  ⟨rfl, rfl, rfl⟩

/-- C5: the claim says a successful remove_asset leaves the previous quantity minus
the removed quantity and deletes the entry exactly when that remainder is zero.
The source test is inverted (`if new.quantity > 0: del ... else: keep new`):
removing 2 from a stored 5 deletes the whole entry (the remaining 3 is lost and
the synthesized quantity afterwards is 0), while removing exactly 5 keeps a
zero-quantity entry instead of deleting it. -/
theorem claim5_remove_partial :
    removeAsset [(1, xA 5)] (xA 2) = .ok [] ∧
    getAsset [] 1 = xA 0 ∧
    removeAsset [(1, xA 5)] (xA 5) = .ok [(1, xA 0)] :=
  ⟨rfl, rfl, rfl⟩

/-- Counterexample to C6: removing a negative quantity of an absent instrument
fails although the stored quantity (zero) is not strictly below the removal
quantity: has_asset passes (-2 is at most 0), the remainder 2 is positive, and the
code executes del on a key the dictionary does not hold, so Python raises
KeyError.  The claimed fails-iff-insufficient equivalence is therefore false. -/
theorem claim6_absent_negative_keyerror :
    removeAsset [] (⟨1, -2⟩ : Asset) = .error (.keyError, []) ∧
    decide ((getAsset ([] : Holdings) 1).quantity < (-2 : Int)) = false :=
  ⟨rfl, rfl⟩

/-- C6 as amended: remove_asset fails exactly when the stored quantity of the
instrument of the asset (zero when absent) is strictly below the quantity being
removed (ValueError), or when the instrument is absent and the removal quantity is
strictly negative, so that the positive remainder runs del on a missing key
(KeyError); and every failure raises with the holdings dictionary unchanged.
Stated for well-formed holdings (every stored asset keyed under its own
instrument), which is every dictionary reachable through the embedded
operations. -/
theorem claim6_remove_characterization (m : Holdings) (a : Asset) (w : WFHoldings m) :
    ((getAsset m a.instrument).quantity < a.quantity →
      removeAsset m a = .error (.cannotRemove, m)) ∧
    (lookupH m a.instrument = none → a.quantity < 0 →
      removeAsset m a = .error (.keyError, m)) ∧
    (a.quantity ≤ (getAsset m a.instrument).quantity →
      (lookupH m a.instrument = none → 0 ≤ a.quantity) →
      ∃ m2, removeAsset m a = .ok m2) ∧
    (∀ e m2, removeAsset m a = .error (e, m2) → m2 = m) := by
  have hinst : (getAsset m a.instrument).instrument = a.instrument :=
    getAsset_instrument m a.instrument w
  refine ⟨?_, ?_, ?_, ?_⟩
  · intro hlt
    have hfail : hasAsset m a = false := by
      simp only [hasAsset, decide_eq_false_iff_not, not_le]
      exact hlt
    unfold removeAsset
    rw [hfail]
    rfl
  · intro habs hneg
    have hga : getAsset m a.instrument = ⟨a.instrument, 0⟩ := by
      unfold getAsset
      rw [habs]
    have h1 : ¬ ((0 : Int) < a.quantity) := by omega
    simp [removeAsset, hasAsset, Asset.subA, hinst, hga, eraseH_none habs, hneg, h1]
  · intro hle hpos
    cases hlk : lookupH m a.instrument with
    | none =>
        have h0 : (getAsset m a.instrument).quantity = 0 := by
          unfold getAsset
          rw [hlk]
        have hq0 : a.quantity = 0 :=
          le_antisymm (h0 ▸ hle) (hpos hlk)
        have hq : ¬ ((0 : Int) < (getAsset m a.instrument).quantity - a.quantity) := by
          rw [h0, hq0]
          simp
        exact ⟨insertH m a.instrument
            ⟨a.instrument, (getAsset m a.instrument).quantity - a.quantity⟩,
          by simp [removeAsset, hasAsset, Asset.subA, hinst, hle, hq]⟩
    | some b =>
        obtain ⟨r, hr⟩ := eraseH_some hlk
        rcases lt_or_ge 0 ((getAsset m a.instrument).quantity - a.quantity) with hq | hq
        · exact ⟨r,
            by simp [removeAsset, hasAsset, Asset.subA, hinst, hle, hq, hr]⟩
        · have hq2 : ¬ ((0 : Int) < (getAsset m a.instrument).quantity - a.quantity) :=
            not_lt.mpr hq
          exact ⟨insertH m a.instrument
              ⟨a.instrument, (getAsset m a.instrument).quantity - a.quantity⟩,
            by simp [removeAsset, hasAsset, Asset.subA, hinst, hle, hq2]⟩
  · intro e m2 h
    unfold removeAsset at h
    simp only [] at h
    split at h
    · simp only [Except.error.injEq, Prod.mk.injEq] at h
      exact h.2.symm
    · split at h
      · simp only [Except.error.injEq, Prod.mk.injEq] at h
        exact h.2.symm
      · split at h
        · split at h
          · simp only [Except.error.injEq, Prod.mk.injEq] at h
            exact h.2.symm
          · simp at h
        · simp at h

/-- Witness for the amended C6: removing 7 from a stored 5 fails with the
dictionary intact, removing -2 of an absent instrument fails with KeyError and the
dictionary intact, and removing 3 from a stored 5 succeeds. -/
theorem claim6_remove_characterization_witness :
    removeAsset [(1, xA 5)] (xA 7) = .error (.cannotRemove, [(1, xA 5)]) ∧
    removeAsset [] (⟨2, -2⟩ : Asset) = .error (.keyError, []) ∧
    ∃ m2, removeAsset [(1, xA 5)] (xA 3) = .ok m2 :=
  ⟨(claim6_remove_characterization [(1, xA 5)] (xA 7) (by decide)).1 (by decide),
   (claim6_remove_characterization [] (⟨2, -2⟩ : Asset) (by decide)).2.1 rfl (by decide),
   (claim6_remove_characterization [(1, xA 5)] (xA 3) (by decide)).2.2.1 (by decide)
     (fun _ => by decide)⟩

/-- C7: the claim says the stored Holdings quantity of every non-benchmark
instrument always equals the summed remaining lot quantity of that instrument.
Starting from 100 cash, buying 5 of instrument 1 and then executing the
zero-quantity sell tradeS0 (a no-op trade per the spec) breaks the invariant: the
inverted branch of remove_asset deletes the instrument-1 entry because its
remainder 5 is positive, so the stored quantity becomes 0 while the lot stack
still carries 5. -/
theorem claim7_conservation_violated :
    Portfolio.executeTrade ⟨[(0, cashA 100)], stack0, [], []⟩ tradeB1 =
      .ok ⟨[(1, xA 5)], ⟨[(1, [.triple (xA 5) 0 tradeB1])], 0⟩, [tradeB1], []⟩ ∧
    Portfolio.executeTrade
        ⟨[(1, xA 5)], ⟨[(1, [.triple (xA 5) 0 tradeB1])], 0⟩, [tradeB1], []⟩ tradeS0 =
      .ok ⟨[(0, cashA 0)], ⟨[(1, [.triple (xA 5) 0 tradeB1])], 0⟩,
        [tradeB1, tradeS0], []⟩ ∧
    (getAsset [(0, cashA 0)] 1).quantity = 0 ∧
    Stack.lotSum ⟨[(1, [.triple (xA 5) 0 tradeB1])], 0⟩ 1 = 5 :=
  ⟨rfl, rfl, rfl, rfl⟩

/-- C8: the claim says handle_trade pushes exactly the pair (bought asset, trade)
when the bought instrument is not the benchmark, and returns an empty sequence
without popping when the sold instrument is the benchmark.  The benchmark half
holds (the buy trade below sells cash and returns an empty list), but the pushed
entry is the 3-tuple (bought asset, 0, trade), not the declared pair. -/
theorem claim8_push_shape :
    stack0.handleTrade tradeB1 = .ok ([], stackB1) ∧
    stackB1.getPos 1 = [.triple (xA 5) 0 tradeB1] ∧
    decide (stackB1.getPos 1 = [.pair (xA 5) tradeB1]) = false :=
  ⟨rfl, rfl, rfl⟩

/-- Counterexample to C9: a sell of 5 of instrument 1 against holdings that store
5 but an empty lot stack passes balance removal and then fails lot matching with
IndexError, yet the failed state is mutated: holdings changed from
100 cash and 5 of instrument 1 to 150 cash and 0, and the trade was appended to
the history.  The application of a failing trade is therefore not all-or-nothing
as claimed. -/
theorem claim9_lot_failure_mutates :
    Portfolio.executeTrade ⟨[(0, cashA 100), (1, xA 5)], stack0, [], []⟩ tradeS5 =
      .error (.indexError,
        ⟨[(0, cashA 150), (1, xA 0)], ⟨[(1, [])], 0⟩, [tradeS5], []⟩) ∧
    decide (([(0, cashA 150), (1, xA 0)] : Holdings) =
      [(0, cashA 100), (1, xA 5)]) = false ∧
    decide (([tradeS5] : List ValuedTrade) = []) = false :=
  ⟨rfl, rfl, rfl⟩

/-- C9 as amended: trade application is all-or-nothing for balance-removal
failures only: whenever the sell side is not backed by the stored holdings
quantity, execute_trade fails with the portfolio exactly as it was before the
attempt. -/
theorem claim9_removal_atomicity (p : Portfolio) (t : ValuedTrade)
    (h : hasAsset p.holdings t.sell = false) :
    p.executeTrade t = .error (.cannotRemove, p) := by
  unfold Portfolio.executeTrade removeAsset
  rw [h]
  rfl

/-- Witness for the amended C9: selling 5 of instrument 1 against cash-only
holdings fails with the portfolio unchanged. -/
theorem claim9_removal_atomicity_witness :
    Portfolio.executeTrade ⟨[(0, cashA 100)], stack0, [], []⟩ tradeS5 =
      .error (.cannotRemove, ⟨[(0, cashA 100)], stack0, [], []⟩) :=
  claim9_removal_atomicity ⟨[(0, cashA 100)], stack0, [], []⟩ tradeS5 (by decide)

/-- C10: the legacy pl_ratio returns none exactly when the starting cash is zero;
otherwise it returns the current value minus the starting cash, divided by the
starting cash, and every returned ratio genuinely satisfies the division equation
against a nonzero starting cash (the guard keeps the division away from zero). -/
theorem claim10_pl_guard (p : OldPortfolio) :
    (p.plRatio = none ↔ p.startCash = 0) ∧
    (p.startCash ≠ 0 →
      p.plRatio = some ((p.value - p.startCash) / p.startCash)) ∧
    (∀ q, p.plRatio = some q →
      p.startCash ≠ 0 ∧ q * p.startCash = p.value - p.startCash) := by
  by_cases h : p.startCash = 0
  · refine ⟨by simp [OldPortfolio.plRatio, h], ?_, ?_⟩
    · intro hne
      exact absurd h hne
    · intro q hq
      exfalso
      simp [OldPortfolio.plRatio, h] at hq
  · refine ⟨by simp [OldPortfolio.plRatio, h], ?_, ?_⟩
    · intro _
      simp [OldPortfolio.plRatio, h]
    · intro q hq
      simp only [OldPortfolio.plRatio, h, if_false, Option.some.injEq] at hq
      subst hq
      exact ⟨h, div_mul_cancel₀ _ h⟩

/-- Witness for C10: with starting cash 100, cash 120 and positions worth 30, the
ratio is defined and equals (150 - 100) / 100; with starting cash 0 the ratio is
none. -/
theorem claim10_pl_guard_witness :
    OldPortfolio.plRatio ⟨100, 120, 30⟩ =
      some ((OldPortfolio.value ⟨100, 120, 30⟩ - 100) / 100) ∧
    OldPortfolio.plRatio ⟨0, 120, 30⟩ = none :=
  ⟨(claim10_pl_guard ⟨100, 120, 30⟩).2.1 (by norm_num),
   (claim10_pl_guard ⟨0, 120, 30⟩).1.mpr rfl⟩

end Merchant
